import Mathlib

/-!
Verification development for the FrtOffersCopilot firm-offer generator.

The repository ships the reference documentation (SYSTEM_ARCHITECTURE.md,
MASTER_LIBRARY.md, the charterer database description and the task sheet)
together with the frontend (frontend/app.js).  The backend generator itself
(Python FastAPI, generator.py) is not part of the available sources, so the
backend data model, clause selector, field formatter, document assembler and
validator below are modelled from the specification, as marked on each
definition.  The frontend event handlers are embedded directly from
frontend/app.js.
-/

namespace FrtOffers

/-- Modelled from the spec: a calendar date as used for laycan_start and
laycan_end (the backend request model is missing from the sources; dates
arrive as ISO strings and are parsed by the validator, which this embedding
represents as an already-parsed year/month/day record). -/
structure SimpleDate where
  year : Nat
  month : Nat
  day : Nat
deriving DecidableEq, Repr

/-- Modelled from the spec: strict date order, used for the laycan_end
before laycan_start validation check. -/
def SimpleDate.ltB (a b : SimpleDate) : Bool :=
  if a.year < b.year then true
  else if b.year < a.year then false
  else if a.month < b.month then true
  else if b.month < a.month then false
  else decide (a.day < b.day)

/-- Modelled from the spec: a port record of the Reference Data Store, with
name, country, region, a single table-driven type tag and an ordered list of
clause identifiers. -/
structure Port where
  name : String
  country : String
  region : String
  type_tag : String
  clause_ids : List String
deriving DecidableEq, Repr

/-- Modelled from the spec: a cargo record with its category and stowage
factor range. -/
structure Cargo where
  name : String
  category : String
  stw_low : Nat
  stw_high : Nat
deriving DecidableEq, Repr

/-- Modelled from the spec: one legal entity of a charterer group. -/
structure Company where
  company_id : String
  legal_name : String
  country : String
  city : String
  postal_code : String
  address : String
  registration_number : String
  vat : String
  or_sub_default : Bool
  is_primary : Bool
deriving DecidableEq, Repr

/-- Modelled from the spec: one line of a split commission breakdown. -/
structure CommissionEntry where
  party : String
  pct : ℚ
deriving DecidableEq, Repr

/-- Modelled from the spec: a commission structure, either split or total. -/
structure Commission where
  format : String
  total_pct : ℚ
  breakdown : List CommissionEntry
deriving DecidableEq, Repr

/-- Modelled from the spec: a charterer record of the Reference Data Store. -/
structure Charterer where
  charterer_id : String
  charterer_name : String
  companies : List Company
  commission : Commission
deriving DecidableEq, Repr

/-- Modelled from the spec: a clause text dictionary entry. -/
structure Clause where
  clause_id : String
  text : String
deriving DecidableEq, Repr

/-- Modelled from the spec: the read-only Reference Data Store, loaded once
at startup, with disjoint load and discharge port catalogs. -/
structure RefData where
  load_ports : List Port
  discharge_ports : List Port
  cargoes : List Cargo
  charterers : List Charterer
  clause_lib : List Clause
deriving DecidableEq, Repr

/-- Modelled from the spec: the ephemeral per-call request record. -/
structure OfferRequest where
  load_port : String
  discharge_port : String
  cargo : String
  quantity : Nat
  quantity_tolerance : Option Nat
  freight_rate : ℚ
  demurrage_rate : ℚ
  laycan_start : SimpleDate
  laycan_end : SimpleDate
  charterer_id : Option String
  or_sub : Bool
deriving DecidableEq, Repr

/-- Modelled from the spec: the summary record of an OfferResult. -/
structure Summary where
  route : String
  cargo_description : String
  total_freight : ℚ
  port_type : String
  clauses_included : List String
  clauses_count : Nat
deriving DecidableEq, Repr

/-- Modelled from the spec: the ephemeral result record; it exists only on
the success path, so a failed generation carries no document text. -/
structure OfferResult where
  firm_offer_text : String
  summary : Summary
deriving DecidableEq, Repr

/-- Modelled from the spec: the validation error kinds of section 7. -/
inductive GenError where
  | UnknownPort (field : String)
  | UnknownCargo
  | UnknownCharterer
  | InvalidQuantity
  | InvalidRate (field : String)
  | InvalidLaycan
deriving DecidableEq, Repr

/-- Lower-cases one ASCII character (structural helper so that all
definitions reduce inside the kernel). -/
def charLower (c : Char) : Char :=
  if c.isUpper then Char.ofNat (c.toNat + 32) else c

/-- Upper-cases one ASCII character. -/
def charUpper (c : Char) : Char :=
  if c.isLower then Char.ofNat (c.toNat - 32) else c

/-- Lower-cases a string character by character. -/
def lowerString (s : String) : String :=
  String.mk (s.data.map charLower)

/-- Upper-cases a string character by character. -/
def upperString (s : String) : String :=
  String.mk (s.data.map charUpper)

/-- Modelled from the spec: the Port Classifier lookup, an exact
case-normalized name match in the given catalog. -/
def findPort (catalog : List Port) (name : String) : Option Port :=
  catalog.find? (fun p => lowerString p.name = lowerString name)

/-- Modelled from the spec: cargo lookup by case-normalized name. -/
def findCargo (catalog : List Cargo) (name : String) : Option Cargo :=
  catalog.find? (fun c => lowerString c.name = lowerString name)

/-- Deduplication worker: keeps list elements whose value was not seen yet,
preserving the first occurrence of each value. -/
def dedupFirstAux (seen : List String) : List String → List String
  | [] => []
  | c :: rest =>
    if c ∈ seen then dedupFirstAux seen rest
    else c :: dedupFirstAux (c :: seen) rest

/-- Modelled from the spec: step 4 of the Clause Selector, deduplication
within a group preserving the first occurrence. -/
def dedupFirst (l : List String) : List String :=
  dedupFirstAux [] l

/-- Modelled from the spec: the fixed grain clause sequence (previous-cargo
restriction, trimming, surveyor access) of the GRAIN CARGO TRIGGERS table. -/
def grainClauseIds : List String :=
  ["CARGO-GRAIN-003", "CARGO-GRAIN-004", "CARGO-GRAIN-005"]

/-- Modelled from the spec: the documents-timing clause appended for grain
cargo when the discharge port is an Egyptian discharge port. -/
def grainEgyptDocClauseId : String := "CARGO-GRAIN-006"

/-- Modelled from the spec: the three ordered clause groups produced by the
Clause Selector. -/
structure ClauseGroups where
  route_clauses : List String
  port_clauses : List String
  cargo_clauses : List String
deriving DecidableEq, Repr

/-- Modelled from the spec: the raw cargo trigger sequence appended in step
3 of the Clause Selector, before deduplication: for grain cargo the fixed
grain sequence, with the documents-timing clause added exactly when the
discharge port type tag is Egypt-discharge; empty for non-grain cargo. -/
def cargoTriggerIds (dischargePort : Port) (cargo : Cargo) : List String :=
  if cargo.category = "grain" then
    grainClauseIds ++
      (if dischargePort.type_tag = "Egypt-discharge" then [grainEgyptDocClauseId] else [])
  else []

/-- Modelled from the spec: the Clause Selector.  Route clauses come from
the load port, port clauses from the discharge port, cargo clauses from the
grain trigger rules; each group is deduplicated preserving first
occurrence. -/
def selectClauses (loadPort dischargePort : Port) (cargo : Cargo) : ClauseGroups :=
  { route_clauses := dedupFirst loadPort.clause_ids
    port_clauses := dedupFirst dischargePort.clause_ids
    cargo_clauses := dedupFirst (cargoTriggerIds dischargePort cargo) }

/-- Stated from the spec words for comparison with the implementation of
deduplication: walk the appended sequence left to right and keep an id only
when it is not already present among the ids kept so far, so that later
repeats of an id are removed and the first occurrence survives in order. -/
def removeLaterRepeats (l : List String) : List String :=
  l.foldl (fun acc c => if c ∈ acc then acc else acc ++ [c]) []

/-- Inserts a comma after every third character of a reversed digit list
(worker for US thousands separators). -/
def commaGroup : List Char → List Char
  | c1 :: c2 :: c3 :: c4 :: rest => c1 :: c2 :: c3 :: ',' :: commaGroup (c4 :: rest)
  | l => l

/-- Modelled from the spec: render a natural number with US thousands
separators. -/
def formatThousands (n : Nat) : String :=
  String.mk ((commaGroup (Nat.repr n).data.reverse).reverse)

/-- Modelled from the spec: the quantity field, thousands-separated with the
MT suffix, and the optional tolerance appended as a percentage. -/
def formatQuantity (q : Nat) (tol : Option Nat) : String :=
  match tol with
  | none => formatThousands q ++ " MT"
  | some t => formatThousands q ++ " MT" ++ " ±" ++ Nat.repr t ++ "%"

/-- Modelled from the spec: fixed two-decimal money rendering with US
thousands separators (the rates carried by a request have at most two
decimal places, so flooring at cents is exact). -/
def money2 (q : ℚ) : String :=
  let c := (q * 100).floor.toNat
  formatThousands (c / 100) ++ "." ++
    (if c % 100 < 10 then "0" ++ Nat.repr (c % 100) else Nat.repr (c % 100))

/-- Modelled from the spec: upper-case English month names for laycan
rendering. -/
def monthName : Nat → String
  | 1 => "JANUARY"
  | 2 => "FEBRUARY"
  | 3 => "MARCH"
  | 4 => "APRIL"
  | 5 => "MAY"
  | 6 => "JUNE"
  | 7 => "JULY"
  | 8 => "AUGUST"
  | 9 => "SEPTEMBER"
  | 10 => "OCTOBER"
  | 11 => "NOVEMBER"
  | 12 => "DECEMBER"
  | _ => ""

/-- Modelled from the spec: the laycan range rendering, compact when start
and end share month and year, fully spelled otherwise. -/
def formatLaycan (s e : SimpleDate) : String :=
  if s.month = e.month ∧ s.year = e.year then
    Nat.repr s.day ++ "-" ++ Nat.repr e.day ++ " " ++ monthName e.month ++ " " ++ Nat.repr e.year
  else
    Nat.repr s.day ++ " " ++ monthName s.month ++ " – " ++
      Nat.repr e.day ++ " " ++ monthName e.month ++ " " ++ Nat.repr e.year

/-- Modelled from the spec: the calendar-year clause value, year/year+1 when
the governing month (the laycan end month) is November or December, plain
year otherwise. -/
def calendarYear (d : SimpleDate) : String :=
  if d.month = 11 ∨ d.month = 12 then
    Nat.repr d.year ++ "/" ++ Nat.repr (d.year + 1)
  else
    Nat.repr d.year

/-- Modelled from the spec: the Ukrainian holidays header line fed by the
calendar-year value. -/
def holidaysLine (d : SimpleDate) : String :=
  "HOLIDAYS AS PER UKRAINE " ++ calendarYear d ++ " CALENDAR"

/-- Modelled from the spec: the cargo description line. -/
def cargoDescription (cargo : Cargo) (q : Nat) (tol : Option Nat) : String :=
  formatQuantity q tol ++ " OF " ++ upperString cargo.name ++ " IN BULK STW ABT " ++
    Nat.repr cargo.stw_low ++ "-" ++ Nat.repr cargo.stw_high ++ " WOG"

/-- Modelled from the spec: the demurrage wording selector rule, combined
wording for Danube load ports. -/
def demurrageLabel (loadPort : Port) : String :=
  if loadPort.type_tag = "DANUBE" then "DEMURRAGE/DETENTION" else "DEMURRAGE"

/-- Modelled from the spec: resolve one clause identifier against the clause
text library (falling back to the identifier itself when the library lacks
an entry, keeping resolution total). -/
def clauseText (lib : List Clause) (cid : String) : String :=
  match lib.find? (fun c => c.clause_id = cid) with
  | some c => c.text
  | none => cid

/-- Modelled from the spec: the repeated box-drawing section divider. -/
def divider : String := String.mk (List.replicate 55 '═')

/-- Modelled from the spec: one labeled clause section, omitted entirely
when its group is empty. -/
def sectionLines (lib : List Clause) (label : String) (ids : List String) : List String :=
  if ids = [] then []
  else [divider, label, divider] ++ ids.map (clauseText lib)

/-- Modelled from the spec: render the legal-entity block of one company,
appending OR SUB to the legal name when requested. -/
def companyLines (co : Company) (orSub : Bool) : List String :=
  [co.legal_name ++ (if orSub then " OR SUB" else ""),
   upperString co.country,
   co.city ++ ", " ++ co.postal_code,
   co.address,
   "Company registration №" ++ co.registration_number,
   "VAT:" ++ co.vat]

/-- Modelled from the spec: render the commission block, split or total
format. -/
def commissionLines (cm : Commission) : List String :=
  if cm.format = "split" then
    ("COMMISSION: " ++ money2 cm.total_pct ++ "% TOTAL BROKERAGE CONSISTING OF:") ::
      cm.breakdown.map (fun e => "- " ++ money2 e.pct ++ " % TO " ++ upperString e.party)
  else
    ["COMMISSION: " ++ money2 cm.total_pct ++ "% TOTAL BROKERAGE TO " ++
      upperString (match cm.breakdown with
                   | e :: _ => e.party
                   | [] => "")]

/-- Modelled from the spec: the optional charterer block. -/
def chartererBlock (chOpt : Option Charterer) (orSub : Bool) : List String :=
  match chOpt with
  | none => []
  | some ch =>
    "CHARTERERS:" :: (ch.companies.flatMap (fun co => companyLines co orSub)) ++
      commissionLines ch.commission

/-- Modelled from the spec: the section label of the route group, naming
the load jurisdiction and classification. -/
def routeLabel (loadPort : Port) : String :=
  upperString loadPort.country ++ " CLAUSES (" ++ loadPort.type_tag ++ ")"

/-- Modelled from the spec: the section label of the discharge-port group. -/
def portLabel (dischargePort : Port) : String :=
  upperString dischargePort.country ++ " CLAUSES"

/-- Modelled from the spec: the section label of the cargo group. -/
def cargoLabel (cargo : Cargo) : String :=
  "CARGO CLAUSES (" ++ upperString cargo.category ++ ")"

/-- Modelled from the spec: the fixed boilerplate closing line. -/
def closingLine : String :=
  "OWISE AS PER ATTACHED CHRTS PROFORMA CP, BASED ON SYNACOMEX 2000 C/P"

/-- Modelled from the spec: the Document Assembler, composing title banner,
header block (with the Ukrainian holidays line when the load port country is
Ukraine), optional charterer block, one section per non-empty clause group
and the boilerplate closing line, as an ordered list of lines. -/
def assembleLines (lib : List Clause) (lp dp : Port) (cg : Cargo)
    (r : OfferRequest) (chOpt : Option Charterer) (groups : ClauseGroups) : List String :=
  ["FIRM OFFER", divider,
   "LOAD PORT: " ++ upperString lp.name ++ ", " ++ upperString lp.country,
   "DISCHARGE PORT: " ++ upperString dp.name ++ ", " ++ upperString dp.country,
   "CARGO: " ++ cargoDescription cg r.quantity r.quantity_tolerance,
   "LAYCAN: " ++ formatLaycan r.laycan_start r.laycan_end] ++
  (if lp.country = "Ukraine" then [holidaysLine r.laycan_end] else []) ++
  ["FREIGHT: USD " ++ money2 r.freight_rate ++ " PMT FIOST",
   demurrageLabel lp ++ ": USD " ++ money2 r.demurrage_rate ++ " PDPR BENDS"] ++
  chartererBlock chOpt r.or_sub ++
  sectionLines lib (routeLabel lp) groups.route_clauses ++
  sectionLines lib (portLabel dp) groups.port_clauses ++
  sectionLines lib (cargoLabel cg) groups.cargo_clauses ++
  [divider, closingLine]

/-- Joins document lines with newlines. -/
def joinLines : List String → String
  | [] => ""
  | [l] => l
  | l :: ls => l ++ "\n" ++ joinLines ls

/-- Modelled from the spec: charterer resolution, succeeding with no
charterer when the optional charterer_id is absent and failing with
UnknownCharterer when the id is supplied but not in the catalog. -/
def resolveCharterer (ref : RefData) (r : OfferRequest) : Except GenError (Option Charterer) :=
  match r.charterer_id with
  | none => Except.ok none
  | some cid =>
    match ref.charterers.find? (fun c => c.charterer_id = cid) with
    | none => Except.error GenError.UnknownCharterer
    | some ch => Except.ok (some ch)

/-- Modelled from the spec: the generate operation.  Fail-fast validation in
the order of section 4.5 (unknown ports, unknown cargo, unknown charterer,
non-positive numerics, laycan order) followed by the Clause Selector, Field
Formatter and Document Assembler; a result record exists only on the success
path, so no partial offer text is ever returned. -/
def generate (ref : RefData) (r : OfferRequest) : Except GenError OfferResult :=
  match findPort ref.load_ports r.load_port with
  | none => Except.error (GenError.UnknownPort "load_port")
  | some lp =>
    match findPort ref.discharge_ports r.discharge_port with
    | none => Except.error (GenError.UnknownPort "discharge_port")
    | some dp =>
      match findCargo ref.cargoes r.cargo with
      | none => Except.error GenError.UnknownCargo
      | some cg =>
        match resolveCharterer ref r with
        | Except.error e => Except.error e
        | Except.ok chOpt =>
          if r.quantity = 0 then Except.error GenError.InvalidQuantity
          else if r.freight_rate ≤ 0 then Except.error (GenError.InvalidRate "freight_rate")
          else if r.demurrage_rate ≤ 0 then Except.error (GenError.InvalidRate "demurrage_rate")
          else if SimpleDate.ltB r.laycan_end r.laycan_start then Except.error GenError.InvalidLaycan
          else
            let groups := selectClauses lp dp cg
            let flat := groups.route_clauses ++ groups.port_clauses ++ groups.cargo_clauses
            let text := joinLines (assembleLines ref.clause_lib lp dp cg r chOpt groups)
            Except.ok
              { firm_offer_text := text
                summary :=
                  { route := lp.name ++ " → " ++ dp.name
                    cargo_description := cargoDescription cg r.quantity r.quantity_tolerance
                    total_freight := (r.quantity : ℚ) * r.freight_rate
                    port_type := lp.type_tag
                    clauses_included := flat
                    clauses_count := flat.length } }

/-- Projects the summary out of a generation outcome; none on failure. -/
def summaryOf : Except GenError OfferResult → Option Summary
  | Except.ok res => some res.summary
  | Except.error _ => none

/-- Sample load port for concrete witnesses, following the Danube port data
of the documentation. -/
def reniPort : Port :=
  { name := "Reni"
    country := "Ukraine"
    region := "Danube"
    type_tag := "DANUBE"
    clause_ids := ["COUNTRY-UKR-001", "PORT-RENI-001", "PORT-RENI-002", "VAR-EX-001", "DEM-001"] }

/-- Sample discharge port for concrete witnesses, following the Egyptian
discharge port data of the documentation. -/
def alexandriaPort : Port :=
  { name := "Alexandria"
    country := "Egypt"
    region := "Mediterranean"
    type_tag := "Egypt-discharge"
    clause_ids := ["COUNTRY-EGY-001", "VAR-NOR-002", "VAR-TC-001", "VAR-TC-003"] }

/-- Sample grain cargo for concrete witnesses (Corn, STW 49-50). -/
def cornCargo : Cargo :=
  { name := "Corn", category := "grain", stw_low := 49, stw_high := 50 }

/-- Sample non-grain cargo for concrete witnesses. -/
def steelCargo : Cargo :=
  { name := "Steel Billets", category := "steel", stw_low := 12, stw_high := 14 }

/-- Sample reference data for concrete witnesses. -/
def sampleRef : RefData :=
  { load_ports := [reniPort]
    discharge_ports := [alexandriaPort]
    cargoes := [cornCargo, steelCargo]
    charterers := []
    clause_lib := [] }

/-- The Reni to Alexandria scenario request of the specification. -/
def reniAlexRequest : OfferRequest :=
  { load_port := "Reni"
    discharge_port := "Alexandria"
    cargo := "Corn"
    quantity := 55000
    quantity_tolerance := none
    freight_rate := 18
    demurrage_rate := 9000
    laycan_start := { year := 2025, month := 12, day := 15 }
    laycan_end := { year := 2025, month := 12, day := 20 }
    charterer_id := none
    or_sub := false }

/-- The scenario request with the laycan bounds swapped, so that the end
date precedes the start date. -/
def badLaycanRequest : OfferRequest :=
  { reniAlexRequest with
    laycan_start := { year := 2025, month := 12, day := 20 }
    laycan_end := { year := 2025, month := 12, day := 15 } }

/-- The frontend page state touched by the handlers of frontend/app.js: the
offer output textarea, the copy button disabled flag, the summary panel
(hidden flag and rendered content), the loading overlay hidden flag and the
generate button disabled flag. -/
structure UIState where
  offerOutput : String
  copyBtnDisabled : Bool
  summaryHidden : Bool
  summaryContent : String
  loadingHidden : Bool
  generateBtnDisabled : Bool
deriving DecidableEq, Repr

/-- The data of a successful POST /api/generate response as consumed by
handleSubmit in frontend/app.js. -/
structure ApiSummary where
  route : String
  cargo_description : String
  total_freight_text : String
  port_type : String
  clauses_count : Nat
deriving DecidableEq, Repr

/-- The body of a successful generate response. -/
structure ApiResult where
  firm_offer_text : String
  summary : ApiSummary
deriving DecidableEq, Repr

/-- The outcome of the awaited fetch in handleSubmit: a parsed successful
response, or a failure covering both a response that is not ok and a thrown
fetch error (both reach the same catch block). -/
inductive FetchOutcome where
  | success (result : ApiResult)
  | failure (message : String)
deriving DecidableEq, Repr

/-- The innerHTML written by showSummary in frontend/app.js, as one string
built from the summary fields. -/
def summaryHtml (s : ApiSummary) : String :=
  "<p><strong>Route:</strong> " ++ s.route ++ "</p>" ++
  "<p><strong>Cargo:</strong> " ++ s.cargo_description ++ "</p>" ++
  "<p><strong>Total Freight:</strong> USD " ++ s.total_freight_text ++ "</p>" ++
  "<p><strong>Port Type:</strong> " ++ s.port_type ++ "</p>" ++
  "<p><strong>Clauses:</strong> " ++ Nat.repr s.clauses_count ++ " clauses included</p>"

/-- The handleSubmit function of frontend/app.js over the page state: an
invalid form returns early after an alert; otherwise the loading overlay is
shown and the generate button disabled, the success branch writes the output
textarea, enables the copy button and shows the summary, the catch branch
only alerts, and the finally block hides the loading overlay and re-enables
the generate button on both paths. -/
def handleSubmit (st : UIState) (formValid : Bool) (outcome : FetchOutcome) : UIState :=
  if !formValid then st
  else
    let stLoading : UIState :=
      { st with loadingHidden := false, generateBtnDisabled := true }
    let stAfter : UIState :=
      match outcome with
      | FetchOutcome.success r =>
        { stLoading with
          offerOutput := r.firm_offer_text
          copyBtnDisabled := false
          summaryHidden := false
          summaryContent := summaryHtml r.summary }
      | FetchOutcome.failure _ => stLoading
    { stAfter with loadingHidden := true, generateBtnDisabled := false }

/-- Lexicographic strict comparison of character lists, the order JavaScript
uses on its strings (code unit by code unit, a proper prefix compares
below). -/
def charListLtB : List Char → List Char → Bool
  | [], [] => false
  | [], _ :: _ => true
  | _ :: _, [] => false
  | a :: as, b :: bs =>
    if a < b then true
    else if b < a then false
    else charListLtB as bs

/-- The JavaScript string less-than relation of the laycan comparison in
frontend/app.js, over the characters of the two strings. -/
def jsStrLtB (a b : String) : Bool :=
  charListLtB a.data b.data

/-- The laycan change handlers of frontend/app.js (both the laycanStart and
the laycanEnd listener run the same body): when the end value compares below
the start value as strings, the end input is overwritten with the start
value; the pair is the (laycanStart.value, laycanEnd.value) state after the
handler. -/
def laycanChangeHandler (startV endV : String) : String × String :=
  if jsStrLtB endV startV then (startV, startV) else (startV, endV)

/-- The charterer change handler of frontend/app.js applied to the OR SUB
checkbox state: when the selected option carries dataset.orSubDefault equal
to the string true the checkbox is set; there is no branch that clears it. -/
def chartererChangeHandler (checked : Bool) (orSubDefaultAttr : String) : Bool :=
  if orSubDefaultAttr = "true" then true else checked

/-- Membership in the deduplication worker: an id appears in the output iff
it appears in the input and was not already seen. -/
theorem mem_dedupFirstAux (l : List String) (seen : List String) (a : String) :
    a ∈ dedupFirstAux seen l ↔ a ∈ l ∧ a ∉ seen := by
  induction l generalizing seen with
  | nil => simp [dedupFirstAux]
  | cons c rest ih =>
    by_cases hc : c ∈ seen
    · rw [dedupFirstAux, if_pos hc, ih]
      constructor
      · rintro ⟨hr, hs⟩
        exact ⟨List.mem_cons_of_mem c hr, hs⟩
      · rintro ⟨hcr, hs⟩
        rcases List.mem_cons.mp hcr with hac | hr
        · exact absurd (hac ▸ hc) hs
        · exact ⟨hr, hs⟩
    · rw [dedupFirstAux, if_neg hc]
      rw [List.mem_cons, ih]
      constructor
      · rintro (hac | ⟨hr, hs⟩)
        · subst hac
          exact ⟨List.mem_cons_self a rest, hc⟩
        · exact ⟨List.mem_cons_of_mem c hr, fun h => hs (List.mem_cons_of_mem c h)⟩
      · rintro ⟨hcr, hs⟩
        rcases List.mem_cons.mp hcr with hac | hr
        · exact Or.inl hac
        · by_cases hac : a = c
          · exact Or.inl hac
          · exact Or.inr ⟨hr, fun h => (List.mem_cons.mp h).elim hac hs⟩

/-- The deduplication worker never repeats an id. -/
theorem nodup_dedupFirstAux (l : List String) (seen : List String) :
    (dedupFirstAux seen l).Nodup := by
  induction l generalizing seen with
  | nil => exact List.nodup_nil
  | cons c rest ih =>
    by_cases hc : c ∈ seen
    · rw [dedupFirstAux, if_pos hc]
      exact ih seen
    · rw [dedupFirstAux, if_neg hc]
      refine List.nodup_cons.mpr ⟨?_, ih (c :: seen)⟩
      intro hmem
      exact ((mem_dedupFirstAux rest (c :: seen) c).mp hmem).2 (List.mem_cons_self c seen)

/-- The deduplication worker output is a subsequence of its input, so the
kept occurrences stay in the appended order. -/
theorem sublist_dedupFirstAux (l : List String) (seen : List String) :
    (dedupFirstAux seen l).Sublist l := by
  induction l generalizing seen with
  | nil => exact List.Sublist.refl []
  | cons c rest ih =>
    by_cases hc : c ∈ seen
    · rw [dedupFirstAux, if_pos hc]
      exact List.Sublist.cons c (ih seen)
    · rw [dedupFirstAux, if_neg hc]
      exact List.Sublist.cons₂ c (ih (c :: seen))

/-- The worker agrees with the left-to-right fold that keeps an id only when
it is absent from the accumulator, provided the seen list and the
accumulator hold the same ids. -/
theorem foldl_dedupFirstAux (l : List String) (acc seen : List String)
    (hmem : ∀ x, x ∈ seen ↔ x ∈ acc) :
    l.foldl (fun acc c => if c ∈ acc then acc else acc ++ [c]) acc =
      acc ++ dedupFirstAux seen l := by
  induction l generalizing acc seen with
  | nil => simp [dedupFirstAux]
  | cons c rest ih =>
    simp only [List.foldl_cons, dedupFirstAux]
    by_cases hc : c ∈ acc
    · rw [if_pos hc, if_pos ((hmem c).mpr hc)]
      exact ih acc seen hmem
    · rw [if_neg hc, if_neg (fun h => hc ((hmem c).mp h))]
      rw [ih (acc ++ [c]) (c :: seen) ?_]
      · simp
      · intro x
        simp only [List.mem_cons, List.mem_append, List.mem_singleton,
          List.not_mem_nil, hmem x]
        tauto

/-- The implementation deduplication equals the spec-worded fold that keeps
only first occurrences. -/
theorem dedupFirst_eq_removeLaterRepeats (l : List String) :
    dedupFirst l = removeLaterRepeats l := by
  rw [removeLaterRepeats, dedupFirst,
    foldl_dedupFirstAux l [] [] (fun x => by simp), List.nil_append]

/-- Deduplicated lists never repeat an id. -/
theorem nodup_dedupFirst (l : List String) : (dedupFirst l).Nodup :=
  nodup_dedupFirstAux l []

/-- Deduplication is a subsequence of the raw appended sequence. -/
theorem sublist_dedupFirst (l : List String) : (dedupFirst l).Sublist l :=
  sublist_dedupFirstAux l []

/-- Deduplication drops no id. -/
theorem mem_dedupFirst (l : List String) (a : String) :
    a ∈ dedupFirst l ↔ a ∈ l := by
  rw [dedupFirst, mem_dedupFirstAux]
  simp

/-- A valid request whose laycan end falls outside November and December,
for concrete witnesses. -/
def marchRequest : OfferRequest :=
  { reniAlexRequest with
    laycan_start := { year := 2025, month := 3, day := 5 }
    laycan_end := { year := 2025, month := 3, day := 10 } }

/-- C1: for grain cargo the Clause Selector appends to cargo_clauses exactly
the fixed grain sequence CARGO-GRAIN-003, CARGO-GRAIN-004, CARGO-GRAIN-005,
followed by CARGO-GRAIN-006 if and only if the discharge port type tag is
Egypt-discharge; for non-grain cargo, cargo_clauses stays empty. -/
theorem grain_cargo_clause_selection (lp dp : Port) (cg : Cargo) :
    (cg.category = "grain" →
      (selectClauses lp dp cg).cargo_clauses =
        ["CARGO-GRAIN-003", "CARGO-GRAIN-004", "CARGO-GRAIN-005"] ++
          (if dp.type_tag = "Egypt-discharge" then ["CARGO-GRAIN-006"] else [])) ∧
    (cg.category ≠ "grain" → (selectClauses lp dp cg).cargo_clauses = []) := by
  constructor
  · intro h
    show dedupFirst (cargoTriggerIds dp cg) = _
    rw [cargoTriggerIds, if_pos h]
    by_cases he : dp.type_tag = "Egypt-discharge"
    · rw [if_pos he, if_pos he]
      rfl
    · rw [if_neg he, if_neg he]
      rfl
  · intro h
    show dedupFirst (cargoTriggerIds dp cg) = _
    rw [cargoTriggerIds, if_neg h]
    rfl

/-- Witness for C1 at the corn (grain) cargo with the Egyptian discharge
port and at a non-grain cargo. -/
theorem grain_cargo_clause_selection_witness :
    (selectClauses reniPort alexandriaPort cornCargo).cargo_clauses =
      ["CARGO-GRAIN-003", "CARGO-GRAIN-004", "CARGO-GRAIN-005"] ++
        (if alexandriaPort.type_tag = "Egypt-discharge" then ["CARGO-GRAIN-006"] else []) ∧
    (selectClauses reniPort alexandriaPort steelCargo).cargo_clauses = [] :=
  ⟨(grain_cargo_clause_selection reniPort alexandriaPort cornCargo).1 (by rfl),
   (grain_cargo_clause_selection reniPort alexandriaPort steelCargo).2 (by decide)⟩

/-- C4: each clause group produced by the Clause Selector contains no clause
id twice; each group equals the trigger-concatenated raw sequence with later
repeats removed (first occurrence kept), and is in particular a subsequence
of that raw sequence, preserving the appended order. -/
theorem clause_groups_deduplicated (lp dp : Port) (cg : Cargo) :
    (selectClauses lp dp cg).route_clauses.Nodup ∧
    (selectClauses lp dp cg).port_clauses.Nodup ∧
    (selectClauses lp dp cg).cargo_clauses.Nodup ∧
    (selectClauses lp dp cg).route_clauses = removeLaterRepeats lp.clause_ids ∧
    (selectClauses lp dp cg).port_clauses = removeLaterRepeats dp.clause_ids ∧
    (selectClauses lp dp cg).cargo_clauses = removeLaterRepeats (cargoTriggerIds dp cg) ∧
    (selectClauses lp dp cg).route_clauses.Sublist lp.clause_ids ∧
    (selectClauses lp dp cg).port_clauses.Sublist dp.clause_ids ∧
    (selectClauses lp dp cg).cargo_clauses.Sublist (cargoTriggerIds dp cg) :=
  ⟨nodup_dedupFirst _, nodup_dedupFirst _, nodup_dedupFirst _,
   dedupFirst_eq_removeLaterRepeats _, dedupFirst_eq_removeLaterRepeats _,
   dedupFirst_eq_removeLaterRepeats _,
   sublist_dedupFirst _, sublist_dedupFirst _, sublist_dedupFirst _⟩

/-- C5: the calendar-year value is year/year+1 when the laycan end month is
November or December and the plain year otherwise, and the Ukrainian
holidays line rendering this value is part of the assembled document
whenever the load port country is Ukraine. -/
theorem calendar_year_rendering (lib : List Clause) (lp dp : Port) (cg : Cargo)
    (chOpt : Option Charterer) (r : OfferRequest) :
    (r.laycan_end.month = 11 ∨ r.laycan_end.month = 12 →
        calendarYear r.laycan_end =
          Nat.repr r.laycan_end.year ++ "/" ++ Nat.repr (r.laycan_end.year + 1)) ∧
    (r.laycan_end.month ≠ 11 ∧ r.laycan_end.month ≠ 12 →
        calendarYear r.laycan_end = Nat.repr r.laycan_end.year) ∧
    (lp.country = "Ukraine" →
        ("HOLIDAYS AS PER UKRAINE " ++ calendarYear r.laycan_end ++ " CALENDAR") ∈
          assembleLines lib lp dp cg r chOpt (selectClauses lp dp cg)) := by
  refine ⟨fun h => ?_, fun h => ?_, fun h => ?_⟩
  · rw [calendarYear, if_pos h]
  · rw [calendarYear, if_neg (by tauto)]
  · show holidaysLine r.laycan_end ∈ _
    simp [assembleLines, h]

/-- Witness for C5: December 2025 renders 2025/2026, March 2025 renders
2025, and the holidays line is assembled for the Ukrainian load port. -/
theorem calendar_year_rendering_witness :
    calendarYear reniAlexRequest.laycan_end = "2025/2026" ∧
    calendarYear marchRequest.laycan_end = "2025" ∧
    holidaysLine reniAlexRequest.laycan_end ∈
      assembleLines [] reniPort alexandriaPort cornCargo reniAlexRequest none
        (selectClauses reniPort alexandriaPort cornCargo) := by
  refine ⟨?_, ?_, ?_⟩
  · have h :=
      (calendar_year_rendering [] reniPort alexandriaPort cornCargo none reniAlexRequest).1
        (Or.inr rfl)
    rw [h]
    rfl
  · have h :=
      (calendar_year_rendering [] reniPort alexandriaPort cornCargo none marchRequest).2.1
        (by decide)
    rw [h]
    rfl
  · exact
      (calendar_year_rendering [] reniPort alexandriaPort cornCargo none reniAlexRequest).2.2
        rfl

/-- C2: every successful generation reports total_freight equal to quantity
times freight_rate exactly, and the Reni to Alexandria scenario (55000 MT at
USD 18.00) yields total_freight 990000 with route Reni → Alexandria. -/
theorem total_freight_exact :
    (∀ (ref : RefData) (r : OfferRequest),
        ∀ s ∈ summaryOf (generate ref r),
          s.total_freight = (r.quantity : ℚ) * r.freight_rate) ∧
    (∀ s ∈ summaryOf (generate sampleRef reniAlexRequest),
        s.total_freight = 990000 ∧ s.route = "Reni → Alexandria") := by
  have hgen : ∀ (ref : RefData) (r : OfferRequest),
      ∀ s ∈ summaryOf (generate ref r),
        s.total_freight = (r.quantity : ℚ) * r.freight_rate := by
    intro ref r s hs
    rw [Option.mem_def] at hs
    unfold generate at hs
    repeat' split at hs
    all_goals simp only [summaryOf] at hs
    all_goals try exact Option.noConfusion hs
    have h := Option.some.inj hs
    subst h
    rfl
  refine ⟨hgen, fun s hs => ⟨?_, ?_⟩⟩
  · have h := hgen sampleRef reniAlexRequest s hs
    rw [h]
    norm_num [reniAlexRequest]
  · have hv : (summaryOf (generate sampleRef reniAlexRequest)).map (fun t => t.route) =
        some "Reni → Alexandria" := by rfl
    rw [Option.mem_def] at hs
    rw [hs] at hv
    simpa using hv

/-- Witness for C2 at the Reni to Alexandria scenario. -/
theorem total_freight_exact_witness :
    (summaryOf (generate sampleRef reniAlexRequest)).map
        (fun s => (s.total_freight, s.route)) = some ((990000 : ℚ), "Reni → Alexandria") := by
  cases hs : summaryOf (generate sampleRef reniAlexRequest) with
  | none => exact absurd hs (by decide)
  | some s =>
    have h := total_freight_exact.2 s (Option.mem_def.mpr hs)
    simp [h.1, h.2]

/-- C3: the generator is a pure function of the reference data and the
request, so two calls with identical inputs produce identical results,
firm_offer_text, summary and clause order included. -/
theorem generate_deterministic (ref : RefData) (r1 r2 : OfferRequest) (h : r1 = r2) :
    generate ref r1 = generate ref r2 := by
  rw [h]

/-- Witness for C3 at the Reni to Alexandria scenario. -/
theorem generate_deterministic_witness :
    generate sampleRef reniAlexRequest = generate sampleRef reniAlexRequest :=
  generate_deterministic sampleRef reniAlexRequest reniAlexRequest rfl

/-- C6: a request that passes the earlier fail-fast validation steps (known
ports, known cargo, resolvable charterer, positive numerics) but has its
laycan end before its laycan start is rejected with InvalidLaycan before any
clause logic runs; the error constructor carries no result record, so no
partial document text is returned. -/
theorem invalid_laycan_rejected (ref : RefData) (r : OfferRequest)
    (lp dp : Port) (cg : Cargo) (chOpt : Option Charterer)
    (hlp : findPort ref.load_ports r.load_port = some lp)
    (hdp : findPort ref.discharge_ports r.discharge_port = some dp)
    (hcg : findCargo ref.cargoes r.cargo = some cg)
    (hch : resolveCharterer ref r = Except.ok chOpt)
    (hq : r.quantity ≠ 0)
    (hf : ¬ r.freight_rate ≤ 0)
    (hd : ¬ r.demurrage_rate ≤ 0)
    (hl : SimpleDate.ltB r.laycan_end r.laycan_start = true) :
    generate ref r = Except.error GenError.InvalidLaycan := by
  unfold generate
  simp only [hlp, hdp, hcg, hch]
  rw [if_neg hq, if_neg hf, if_neg hd, if_pos hl]

/-- Witness for C6 at the scenario request with swapped laycan bounds. -/
theorem invalid_laycan_rejected_witness :
    generate sampleRef badLaycanRequest = Except.error GenError.InvalidLaycan :=
  invalid_laycan_rejected sampleRef badLaycanRequest reniPort alexandriaPort cornCargo none
    (by rfl) (by rfl) (by rfl) (by rfl) (by decide) (by decide) (by decide) (by rfl)

/-- C7: the rendered cargo description is the thousands-separated quantity
with the MT suffix (and the tolerance percentage when present), then OF, the
upper-cased cargo name, IN BULK STW ABT, the stowage range and WOG; for
55000 MT of Corn with STW 49-50 the line starts with 55,000 MT. -/
theorem cargo_description_format (cg : Cargo) (q : Nat) (t : Nat) :
    cargoDescription cg q none =
      formatThousands q ++ " MT" ++ " OF " ++ upperString cg.name ++
        " IN BULK STW ABT " ++ Nat.repr cg.stw_low ++ "-" ++ Nat.repr cg.stw_high ++ " WOG" ∧
    cargoDescription cg q (some t) =
      formatThousands q ++ " MT" ++ " ±" ++ Nat.repr t ++ "%" ++ " OF " ++ upperString cg.name ++
        " IN BULK STW ABT " ++ Nat.repr cg.stw_low ++ "-" ++ Nat.repr cg.stw_high ++ " WOG" ∧
    cargoDescription cornCargo 55000 none = "55,000 MT OF CORN IN BULK STW ABT 49-50 WOG" ∧
    formatThousands 55000 ++ " MT" = "55,000 MT" :=
  ⟨rfl, rfl, rfl, rfl⟩

/-- C8: after either laycan change handler of frontend/app.js runs, the end
value is never below the start value in the ISO string order; an end value
entered below the start value is silently overwritten with the start value,
and otherwise both values are left unchanged. -/
theorem laycan_change_restores_order (s e : String) :
    (laycanChangeHandler s e).1 = s ∧
    jsStrLtB (laycanChangeHandler s e).2 (laycanChangeHandler s e).1 = false ∧
    (jsStrLtB e s = true → (laycanChangeHandler s e).2 = s) ∧
    (jsStrLtB e s = false → (laycanChangeHandler s e).2 = e) := by
  have hirr : ∀ l : List Char, charListLtB l l = false := by
    intro l
    induction l with
    | nil => rfl
    | cons a as ih =>
      rw [charListLtB, if_neg (lt_irrefl a), if_neg (lt_irrefl a)]
      exact ih
  unfold laycanChangeHandler
  cases h : jsStrLtB e s with
  | true =>
    rw [if_pos rfl]
    exact ⟨rfl, hirr s.data, fun _ => rfl, fun hf => absurd hf.symm Bool.false_ne_true⟩
  | false =>
    rw [if_neg Bool.false_ne_true]
    exact ⟨rfl, h, fun ht => absurd ht Bool.false_ne_true, fun _ => rfl⟩

/-- Witness for C8 on concrete ISO dates: an earlier end date is overwritten
with the start date and a later end date is kept. -/
theorem laycan_change_restores_order_witness :
    (laycanChangeHandler "2025-12-15" "2025-12-10").2 = "2025-12-15" ∧
    (laycanChangeHandler "2025-12-15" "2025-12-20").2 = "2025-12-20" :=
  ⟨(laycan_change_restores_order "2025-12-15" "2025-12-10").2.2.1 (by rfl),
   (laycan_change_restores_order "2025-12-15" "2025-12-20").2.2.2 (by rfl)⟩

/-- C9: when the generate call fails (response not ok or fetch thrown),
handleSubmit leaves the output textarea, the copy button disabled state and
the summary panel untouched, and on every run through the submission path,
success or failure, the finally block hides the loading overlay and
re-enables the generate button. -/
theorem handle_submit_failure_behavior (st : UIState) (msg : String) (outcome : FetchOutcome) :
    (handleSubmit st true (FetchOutcome.failure msg)).offerOutput = st.offerOutput ∧
    (handleSubmit st true (FetchOutcome.failure msg)).copyBtnDisabled = st.copyBtnDisabled ∧
    (handleSubmit st true (FetchOutcome.failure msg)).summaryHidden = st.summaryHidden ∧
    (handleSubmit st true (FetchOutcome.failure msg)).summaryContent = st.summaryContent ∧
    (handleSubmit st true outcome).loadingHidden = true ∧
    (handleSubmit st true outcome).generateBtnDisabled = false := by
  refine ⟨rfl, rfl, rfl, rfl, ?_, ?_⟩ <;> cases outcome <;> rfl

/-- C10: the charterer change handler only ever sets the OR SUB checkbox:
once checked it stays checked across any sequence of later selections, in
particular when switching to a charterer whose or_sub_default is false. -/
theorem or_sub_checkbox_monotone (checked : Bool) (sels : List String) (s : String)
    (h : checked = true) :
    List.foldl chartererChangeHandler checked sels = true ∧
    chartererChangeHandler true s = true := by
  have hset : ∀ x : String, chartererChangeHandler true x = true := by
    intro x
    unfold chartererChangeHandler
    split <;> rfl
  refine ⟨?_, hset s⟩
  subst h
  induction sels with
  | nil => rfl
  | cons x xs ih =>
    rw [List.foldl_cons, hset x]
    exact ih

/-- Witness for C10: a checked checkbox survives a sequence of selections
ending in charterers without the OR SUB default. -/
theorem or_sub_checkbox_monotone_witness :
    List.foldl chartererChangeHandler true ["true", "false", ""] = true ∧
    chartererChangeHandler true "false" = true :=
  or_sub_checkbox_monotone true ["true", "false", ""] "false" rfl

end FrtOffers
